import Mathlib

/-!
Shallow embedding of the SourceCheckOrg/revenue-sharing-solana program
(src/state.rs, src/instruction.rs, src/error.rs, src/processor.rs).

Bytes are naturals (< 256 where it matters), byte buffers are lists of
naturals, and 32-byte addresses (Pubkey) are byte lists.  Fallible Rust
code returns Except; a Rust panic (an out-of-bounds slice index from the
array_ref family of macros) is the `none` of an outer Option layer.
-/

namespace RevShare

/-- models solana_program::program_error::ProgramError, restricted to the
variants this program can produce; custom carries the u32 of a
program-specific error. -/
inductive ProgramError where
  | custom (code : ℕ)
  | invalidAccountData
  | accountAlreadyInitialized
  | uninitializedAccount
  | missingRequiredSignature
  | incorrectProgramId
deriving DecidableEq, Repr

/-- src/error.rs: the program's own error enum (discriminants 0, 1, 2). -/
inductive RevenueSharingError where
  | invalidInstruction
  | notRentExempt
  | withdrawLimitExceeded
deriving DecidableEq, Repr

/-- src/error.rs: `err as u32` for the From<RevenueSharingError> impl. -/
def RevenueSharingError.code : RevenueSharingError → ℕ
  | .invalidInstruction => 0
  | .notRentExempt => 1
  | .withdrawLimitExceeded => 2

/-- src/error.rs: From<RevenueSharingError> for ProgramError
(ProgramError::Custom(err as u32)). -/
def RevenueSharingError.toProgramError (e : RevenueSharingError) : ProgramError :=
  ProgramError.custom e.code

/-- a 32-byte address, kept as its byte list. -/
abbrev Pubkey := List ℕ

/-- models spl_token::id, the fixed address of the external token program;
only its identity (equality with other addresses) matters. -/
def spl_token_id : Pubkey := List.replicate 32 255

/-- little-endian value of a byte list (uN::from_le_bytes). -/
def fromLE : List ℕ → ℕ
  | [] => 0
  | b :: bs => b + 256 * fromLE bs

/-- k little-endian bytes of n (uN::to_le_bytes). -/
def toLE : ℕ → ℕ → List ℕ
  | 0, _ => []
  | k + 1, n => n % 256 :: toLE k (n / 256)

/-- src/state.rs: the persistent revenue-sharing record. -/
structure RevenueSharing where
  is_initialized : Bool
  member_1_pubkey : Pubkey
  member_2_pubkey : Pubkey
  member_1_shares : ℕ
  member_2_shares : ℕ
  member_1_withdraw : ℕ
  member_2_withdraw : ℕ
deriving DecidableEq, Repr

namespace RevenueSharing

/-- src/state.rs: Pack::LEN = 85. -/
def LEN : ℕ := 85

/-- in-range record: the Rust field types (Pubkey = 32 bytes, u16, u64). -/
def WF (r : RevenueSharing) : Prop :=
  r.member_1_pubkey.length = 32 ∧ (∀ b ∈ r.member_1_pubkey, b < 256) ∧
  r.member_2_pubkey.length = 32 ∧ (∀ b ∈ r.member_2_pubkey, b < 256) ∧
  r.member_1_shares < 2 ^ 16 ∧ r.member_2_shares < 2 ^ 16 ∧
  r.member_1_withdraw < 2 ^ 64 ∧ r.member_2_withdraw < 2 ^ 64

instance (r : RevenueSharing) : Decidable r.WF := by
  unfold WF
  infer_instance

/-- src/state.rs lines 36-63 (unpack_from_slice): splits the first 85 bytes
into 1+32+32+2+2+8+8 fields and checks the flag byte is 0 or 1.  The
array_ref! macro panics when the input is shorter than 85 bytes: that path
is the `none`. -/
def unpack_from_slice (src : List ℕ) : Option (Except ProgramError RevenueSharing) :=
  if 85 ≤ src.length then
    some (match src.take 1 with
      | [0] => Except.ok
          { is_initialized := false
            member_1_pubkey := (src.drop 1).take 32
            member_2_pubkey := (src.drop 33).take 32
            member_1_shares := fromLE ((src.drop 65).take 2)
            member_2_shares := fromLE ((src.drop 67).take 2)
            member_1_withdraw := fromLE ((src.drop 69).take 8)
            member_2_withdraw := fromLE ((src.drop 77).take 8) }
      | [1] => Except.ok
          { is_initialized := true
            member_1_pubkey := (src.drop 1).take 32
            member_2_pubkey := (src.drop 33).take 32
            member_1_shares := fromLE ((src.drop 65).take 2)
            member_2_shares := fromLE ((src.drop 67).take 2)
            member_1_withdraw := fromLE ((src.drop 69).take 8)
            member_2_withdraw := fromLE ((src.drop 77).take 8) }
      | _ => Except.error ProgramError.invalidAccountData)
  else none

/-- src/state.rs lines 66-96 (pack_into_slice): the 85-byte encoding,
flag byte then the six fields, multi-byte integers little-endian. -/
def pack_into_slice (r : RevenueSharing) : List ℕ :=
  (if r.is_initialized then [1] else [0]) ++
    r.member_1_pubkey ++ r.member_2_pubkey ++
    toLE 2 r.member_1_shares ++ toLE 2 r.member_2_shares ++
    toLE 8 r.member_1_withdraw ++ toLE 8 r.member_2_withdraw

/-- solana_program's provided Pack::unpack_unchecked: rejects any input
whose length is not exactly LEN with InvalidAccountData, then delegates to
unpack_from_slice (whose panic branch is thereby unreachable). -/
def unpack_unchecked (input : List ℕ) : Option (Except ProgramError RevenueSharing) :=
  if input.length = LEN then unpack_from_slice input
  else some (Except.error ProgramError.invalidAccountData)

/-- total version of unpack_unchecked used by the handlers; the default is
unreachable (unpack_unchecked_isSome below). -/
def unpack_uncheckedT (input : List ℕ) : Except ProgramError RevenueSharing :=
  (unpack_unchecked input).getD (Except.error ProgramError.invalidAccountData)

/-- solana_program's provided Pack::unpack: unpack_unchecked plus the
is_initialized check (UninitializedAccount when false). -/
def unpackT (input : List ℕ) : Except ProgramError RevenueSharing :=
  match unpack_uncheckedT input with
  | Except.ok st =>
      if st.is_initialized then Except.ok st
      else Except.error ProgramError.uninitializedAccount
  | Except.error e => Except.error e

/-- solana_program's provided Pack::pack: rejects a destination whose length
is not LEN with InvalidAccountData, else writes pack_into_slice there. -/
def pack (r : RevenueSharing) (dstLen : ℕ) : Except ProgramError (List ℕ) :=
  if dstLen = LEN then Except.ok (pack_into_slice r)
  else Except.error ProgramError.invalidAccountData

end RevenueSharing

/-!
Model of IEEE-754 binary64 ("f64") arithmetic, exact and executable over
the integers.  A float value is a pair (num, exp) denoting num * 2^exp;
each Rust f64 operation is the exact rational operation followed by
rounding to a 53-bit significand, round-to-nearest, ties-to-even, with an
unbounded exponent range (the values arising in src/processor.rs lines
181-194 stay far below the binary64 overflow threshold 2^1024 and far
above the subnormal range, so the unbounded model coincides with binary64
there; this was additionally cross-validated against hardware binary64 on
a battery of concrete inputs).
-/

/-- a binary64 value num * 2^exp (num = 0 or 2^52 <= |num| <= 2^53 after
rounding). -/
structure F64 where
  num : ℤ
  exp : ℤ
deriving DecidableEq, Repr

/-- fuel-bounded floor of log2 (fuel beyond 400 bits is never needed
here). -/
def log2fuel : ℕ → ℕ → ℕ
  | 0, _ => 0
  | fuel + 1, n => if n < 2 then 0 else log2fuel fuel (n / 2) + 1

/-- floor of log2 of a natural (0 for 0); total structural recursion so
that the kernel evaluates it. -/
def nlog2 (n : ℕ) : ℕ := log2fuel 400 n

/-- whether n / q >= 2^c for naturals n, q > 0 and an integer c. -/
def gePow2 (n q : ℕ) (c : ℤ) : Bool :=
  if 0 ≤ c then q * 2 ^ c.toNat ≤ n else q ≤ n * 2 ^ (-c).toNat

/-- round the exact nonnegative fraction N / Q (Q > 0) to the nearest
integer, ties to even. -/
def roundHalfEvenFrac (N Q : ℕ) : ℕ :=
  let d := N / Q
  let r := N % Q
  if 2 * r < Q then d
  else if Q < 2 * r then d + 1
  else if d % 2 = 0 then d else d + 1

/-- round the exact rational (p / q) * 2^exp (q > 0) to binary64: locate
the binade of |p| / q, scale the fraction so its integer part carries 53
bits, and round half-to-even. -/
def roundFracE (p : ℤ) (q : ℕ) (exp : ℤ) : F64 :=
  if p = 0 then ⟨0, 0⟩
  else
    let n := p.natAbs
    let e0 : ℤ := (nlog2 n : ℤ) - (nlog2 q : ℤ)
    let t : ℤ := if gePow2 n q e0 then e0 else e0 - 1
    let sh : ℤ := 52 - t
    let N := if 0 ≤ sh then n * 2 ^ sh.toNat else n
    let Q := if 0 ≤ sh then q else q * 2 ^ (-sh).toNat
    let m := roundHalfEvenFrac N Q
    ⟨if p < 0 then -(m : ℤ) else (m : ℤ), exp + t - 52⟩

/-- binary64 rounding of the dyadic value s * 2^e. -/
def roundDyadic (s : ℤ) (e : ℤ) : F64 := roundFracE s 1 e

/-- u64-to-f64 cast of Rust (`n as f64`): round to nearest, ties to
even. -/
def ofN (n : ℕ) : F64 := roundFracE (n : ℤ) 1 0

/-- f64 addition: exact dyadic sum, then one rounding. -/
def addF (a b : F64) : F64 :=
  let e := min a.exp b.exp
  roundDyadic (a.num * 2 ^ (a.exp - e).toNat + b.num * 2 ^ (b.exp - e).toNat) e

/-- f64 subtraction: exact dyadic difference, then one rounding. -/
def subF (a b : F64) : F64 := addF a ⟨-b.num, b.exp⟩

/-- f64 multiplication: exact product, then one rounding. -/
def mulF (a b : F64) : F64 := roundDyadic (a.num * b.num) (a.exp + b.exp)

/-- f64 division by the exactly representable constant 10000f64: exact
quotient, then one rounding. -/
def div10000F (a : F64) : F64 := roundFracE a.num 10000 a.exp

/-- floor of a nonnegative f64 value as a natural. -/
def floorF (a : F64) : ℕ :=
  if 0 ≤ a.exp then a.num.toNat * 2 ^ a.exp.toNat
  else a.num.toNat / 2 ^ (-a.exp).toNat

/-- Rust's `as u64` cast of an f64 value: truncation toward zero,
saturating at 0 and at u64::MAX, as on the Solana BPF target. -/
def u64ofF64 (a : F64) : ℕ :=
  if a.num ≤ 0 then 0
  else if 2 ^ 64 ≤ floorF a then 2 ^ 64 - 1
  else floorF a

/-- src/processor.rs lines 181-194: the withdrawal handler's entitlement
computation, carried out in f64.  Every cast and arithmetic operation of
the source rounds: `balance as f64` and the other integer-to-f64 casts
round to nearest, `a + b + c` is addF (addF a b) c, and the member branch
computes subF (div10000F (mulF total shares)) withdrawn, matching the
source expression; the final `as u64` truncates, saturating. -/
def maxAllowedF64 (balance w1 w2 s1 s2 : ℕ) (is_m1 : Bool) : ℕ :=
  let b := ofN balance
  let w1f := ofN w1
  let w2f := ofN w2
  let s1f := ofN s1
  let s2f := ofN s2
  let total := addF (addF b w1f) w2f
  let m :=
    if is_m1 then subF (div10000F (mulF total s1f)) w1f
    else subF (div10000F (mulF total s2f)) w2f
  u64ofF64 m

/-- the spec's entitlement formula in exact integer arithmetic:
floor ((balance + w1 + w2) * shares / 10000) - withdrawn, truncated at 0
(natural-number subtraction). -/
def exactMaxAllowed (balance w1 w2 shares withdrawn : ℕ) : ℕ :=
  (balance + w1 + w2) * shares / 10000 - withdrawn

/-- src/instruction.rs: the two typed operations. -/
inductive RevenueSharingInstruction where
  | initRevenueSharing (member_1_shares member_2_shares : ℕ)
  | withdraw (amount : ℕ)
deriving DecidableEq, Repr

namespace RevenueSharingInstruction

/-- src/instruction.rs lines 96-103 (unpack_amount): reads 8 little-endian
bytes through a checked `get(..8)`, so a short input is the explicit error
InvalidInstruction. -/
def unpack_amount (input : List ℕ) : Except ProgramError ℕ :=
  if 8 ≤ input.length then Except.ok (fromLE (input.take 8))
  else Except.error RevenueSharingError.invalidInstruction.toProgramError

/-- src/instruction.rs lines 85-94 (unpack_revenue_sharing): reads two
u16 shares from exactly 4 payload bytes via `array_ref![data, 0, 4]`,
which panics (the `none`) when fewer than 4 bytes are present; there is
no error path in the source. -/
def unpack_revenue_sharing (data : List ℕ) : Option RevenueSharingInstruction :=
  if 4 ≤ data.length then
    some (initRevenueSharing (fromLE (data.take 2)) (fromLE ((data.drop 2).take 2)))
  else none

/-- src/instruction.rs lines 69-77 (unpack): splits the tag byte (empty
input is the explicit error InvalidInstruction), dispatches tag 0 to
unpack_revenue_sharing (whose panic propagates as `none`), tag 1 to
unpack_amount, and rejects any other tag. -/
def unpack (input : List ℕ) : Option (Except ProgramError RevenueSharingInstruction) :=
  match input with
  | [] => some (Except.error RevenueSharingError.invalidInstruction.toProgramError)
  | tag :: rest =>
    if tag = 0 then (unpack_revenue_sharing rest).map Except.ok
    else if tag = 1 then some ((unpack_amount rest).map withdraw)
    else some (Except.error RevenueSharingError.invalidInstruction.toProgramError)

end RevenueSharingInstruction

/-- an externally visible action a handler performs, in order: a delegated
token transfer CPI, the set-authority CPI of the init handler, or a write
of the state record's account data. -/
inductive Action where
  | transferRequest (amount : ℕ)
  | ownerChange
  | recordWrite (data : List ℕ)
deriving DecidableEq, Repr

deriving instance DecidableEq for Except

/-- result of running a handler: its return value, the state account's
data after the run, and the ordered actions it performed. -/
structure HandlerOut where
  result : Except ProgramError Unit
  state_data : List ℕ
  trace : List Action
deriving DecidableEq, Repr

/-- the environment process_withdraw reads: the six positional accounts of
the withdraw instruction reduced to the fields the source uses.
shared_amount is the outcome of spl_token TokenAccount::unpack on the
shared account's data (the token amount when it succeeds);
transfer_result is the outcome of the invoke_signed transfer CPI, both
supplied by the external collaborators the handler delegates to. -/
structure WithdrawEnv where
  caller_key : Pubkey
  caller_is_signer : Bool
  state_data : List ℕ
  shared_amount : Except ProgramError ℕ
  transfer_result : Except ProgramError Unit
deriving Repr

/-- src/processor.rs lines 135-232 (process_withdraw), in source order:
signer check; Pack::unpack of the state record; member check; token
account unpack; the f64 entitlement computation and limit check; the
transfer CPI; and on its success the wrapping u64 counter updates (one
per matching member) followed by Pack::pack of the record, the last
action.  Every early return leaves the state data unchanged. -/
def process_withdraw (env : WithdrawEnv) (amount : ℕ) : HandlerOut :=
  if !env.caller_is_signer then
    ⟨Except.error ProgramError.missingRequiredSignature, env.state_data, []⟩
  else
    match RevenueSharing.unpackT env.state_data with
    | Except.error e => ⟨Except.error e, env.state_data, []⟩
    | Except.ok st =>
      let is_member1 := st.member_1_pubkey == env.caller_key
      let is_member2 := st.member_2_pubkey == env.caller_key
      if !is_member1 && !is_member2 then
        ⟨Except.error ProgramError.invalidAccountData, env.state_data, []⟩
      else
        match env.shared_amount with
        | Except.error e => ⟨Except.error e, env.state_data, []⟩
        | Except.ok balance =>
          let max_allowed := maxAllowedF64 balance st.member_1_withdraw
            st.member_2_withdraw st.member_1_shares st.member_2_shares is_member1
          if amount > max_allowed then
            ⟨Except.error RevenueSharingError.withdrawLimitExceeded.toProgramError,
              env.state_data, []⟩
          else
            match env.transfer_result with
            | Except.error e =>
                ⟨Except.error e, env.state_data, [Action.transferRequest amount]⟩
            | Except.ok _ =>
              let st1 := if is_member1 then
                  { st with member_1_withdraw := (st.member_1_withdraw + amount) % 2 ^ 64 }
                else st
              let st2 := if is_member2 then
                  { st1 with member_2_withdraw := (st1.member_2_withdraw + amount) % 2 ^ 64 }
                else st1
              match RevenueSharing.pack st2 env.state_data.length with
              | Except.error e =>
                  ⟨Except.error e, env.state_data, [Action.transferRequest amount]⟩
              | Except.ok nd =>
                  ⟨Except.ok (), nd, [Action.transferRequest amount, Action.recordWrite nd]⟩

/-- the environment process_init_revenue_sharing reads: the seven
positional accounts of the init instruction reduced to the fields the
source uses.  rent_exempt is the host runtime's Rent::is_exempt verdict
on the state account; cpi_result is the outcome of the set-authority CPI
delegated to the token program. -/
structure InitEnv where
  init_is_signer : Bool
  shared_owner : Pubkey
  rent_exempt : Bool
  state_data : List ℕ
  member_1_key : Pubkey
  member_2_key : Pubkey
  cpi_result : Except ProgramError Unit
deriving Repr

/-- src/processor.rs lines 49-133 (process_init_revenue_sharing), in
source order: signer check; shared-account owner check against the token
program id; rent-exemption check; Pack::unpack_unchecked of the state
record and the already-initialized check; then the one-time population of
every field, Pack::pack of the record, and the set-authority CPI naming
the derived authority.  Every early return leaves the state data
unchanged. -/
def process_init_revenue_sharing (env : InitEnv)
    (member_1_shares member_2_shares : ℕ) : HandlerOut :=
  if !env.init_is_signer then
    ⟨Except.error ProgramError.missingRequiredSignature, env.state_data, []⟩
  else if env.shared_owner ≠ spl_token_id then
    ⟨Except.error ProgramError.incorrectProgramId, env.state_data, []⟩
  else if !env.rent_exempt then
    ⟨Except.error RevenueSharingError.notRentExempt.toProgramError, env.state_data, []⟩
  else
    match RevenueSharing.unpack_uncheckedT env.state_data with
    | Except.error e => ⟨Except.error e, env.state_data, []⟩
    | Except.ok st =>
      if st.is_initialized then
        ⟨Except.error ProgramError.accountAlreadyInitialized, env.state_data, []⟩
      else
        let newSt : RevenueSharing :=
          { is_initialized := true
            member_1_pubkey := env.member_1_key
            member_2_pubkey := env.member_2_key
            member_1_shares := member_1_shares
            member_2_shares := member_2_shares
            member_1_withdraw := 0
            member_2_withdraw := 0 }
        match RevenueSharing.pack newSt env.state_data.length with
        | Except.error e => ⟨Except.error e, env.state_data, []⟩
        | Except.ok nd =>
          match env.cpi_result with
          | Except.error e => ⟨Except.error e, nd, [Action.recordWrite nd]⟩
          | Except.ok _ => ⟨Except.ok (), nd, [Action.recordWrite nd, Action.ownerChange]⟩

/-! Concrete fixtures used to instantiate the universally quantified
theorems below at specific inputs. -/

/-- a member address. -/
def key1 : Pubkey := List.replicate 32 1

/-- another member address. -/
def key2 : Pubkey := List.replicate 32 2

/-- an address that is neither member. -/
def key3 : Pubkey := List.replicate 32 3

/-- an initialized record with shares 6000 / 4000 and nothing withdrawn
(the spec's concrete scenario). -/
def recA : RevenueSharing :=
  { is_initialized := true
    member_1_pubkey := key1
    member_2_pubkey := key2
    member_1_shares := 6000
    member_2_shares := 4000
    member_1_withdraw := 0
    member_2_withdraw := 0 }

/-- member 1 withdrawing from recA with a shared balance of 1000. -/
def envA : WithdrawEnv :=
  { caller_key := key1
    caller_is_signer := true
    state_data := RevenueSharing.pack_into_slice recA
    shared_amount := Except.ok 1000
    transfer_result := Except.ok () }

/-- an initialized record granting member 1 the full 10000 basis points. -/
def recB : RevenueSharing :=
  { is_initialized := true
    member_1_pubkey := key1
    member_2_pubkey := key2
    member_1_shares := 10000
    member_2_shares := 0
    member_1_withdraw := 0
    member_2_withdraw := 0 }

/-- member 1 withdrawing from recB with a shared balance of 2^53 + 1. -/
def envB : WithdrawEnv :=
  { caller_key := key1
    caller_is_signer := true
    state_data := RevenueSharing.pack_into_slice recB
    shared_amount := Except.ok 9007199254740993
    transfer_result := Except.ok () }

/-- an initialized record with shares 5000 / 5000 and nothing withdrawn. -/
def recC : RevenueSharing :=
  { is_initialized := true
    member_1_pubkey := key1
    member_2_pubkey := key2
    member_1_shares := 5000
    member_2_shares := 5000
    member_1_withdraw := 0
    member_2_withdraw := 0 }

/-- member 1 withdrawing from recC with a shared balance of 2^53 + 3. -/
def envC : WithdrawEnv :=
  { caller_key := key1
    caller_is_signer := true
    state_data := RevenueSharing.pack_into_slice recC
    shared_amount := Except.ok 9007199254740995
    transfer_result := Except.ok () }

/-- an initialized record whose two member identities coincide. -/
def recEq : RevenueSharing :=
  { is_initialized := true
    member_1_pubkey := key1
    member_2_pubkey := key1
    member_1_shares := 6000
    member_2_shares := 4000
    member_1_withdraw := 0
    member_2_withdraw := 0 }

/-- the shared member of recEq withdrawing with a shared balance of 1000. -/
def envEq : WithdrawEnv :=
  { caller_key := key1
    caller_is_signer := true
    state_data := RevenueSharing.pack_into_slice recEq
    shared_amount := Except.ok 1000
    transfer_result := Except.ok () }

/-- a caller who is no member attempting a withdrawal against recA. -/
def envNM : WithdrawEnv :=
  { caller_key := key3
    caller_is_signer := true
    state_data := RevenueSharing.pack_into_slice recA
    shared_amount := Except.ok 1000
    transfer_result := Except.ok () }

/-- an init attempt whose state account already holds the initialized
record recA, with every earlier precondition satisfied. -/
def envInitA : InitEnv :=
  { init_is_signer := true
    shared_owner := spl_token_id
    rent_exempt := true
    state_data := RevenueSharing.pack_into_slice recA
    member_1_key := key1
    member_2_key := key2
    cpi_result := Except.ok () }

set_option maxRecDepth 1000000

/-- toLE produces exactly k bytes. -/
theorem toLE_length (k n : ℕ) : (toLE k n).length = k := by
  induction k generalizing n with
  | zero => rfl
  | succ k ih => simp [toLE, ih]

/-- toLE produces bytes below 256. -/
theorem toLE_lt (k n : ℕ) : ∀ b ∈ toLE k n, b < 256 := by
  induction k generalizing n with
  | zero => simp [toLE]
  | succ k ih =>
    intro b hb
    simp only [toLE, List.mem_cons] at hb
    rcases hb with h | h
    · exact h ▸ Nat.mod_lt _ (by norm_num)
    · exact ih _ b h

/-- little-endian encode then decode is the identity on values in
range. -/
theorem fromLE_toLE (k n : ℕ) (h : n < 256 ^ k) : fromLE (toLE k n) = n := by
  induction k generalizing n with
  | zero => simpa [toLE, fromLE] using (Nat.lt_one_iff.mp (by simpa using h)).symm
  | succ k ih =>
    have hdiv : n / 256 < 256 ^ k := by
      rw [Nat.div_lt_iff_lt_mul (by norm_num)]
      calc n < 256 ^ (k + 1) := h
        _ = 256 ^ k * 256 := by ring
    simp [toLE, fromLE, ih _ hdiv, Nat.mod_add_div]

/-- little-endian decode then encode is the identity on byte lists. -/
theorem toLE_fromLE (l : List ℕ) (h : ∀ b ∈ l, b < 256) :
    toLE l.length (fromLE l) = l := by
  induction l with
  | nil => rfl
  | cons b bs ih =>
    have hb : b < 256 := h b (List.mem_cons_self b bs)
    have hbs : ∀ x ∈ bs, x < 256 := fun x hx => h x (List.mem_cons_of_mem b hx)
    simp only [List.length_cons, toLE, fromLE]
    have h1 : (b + 256 * fromLE bs) % 256 = b := by omega
    have h2 : (b + 256 * fromLE bs) / 256 = fromLE bs := by omega
    rw [h1, h2, ih hbs]

/-- the provided unpack_unchecked never reaches the panic of
unpack_from_slice: its length guard makes the Option layer total. -/
theorem unpack_unchecked_isSome (input : List ℕ) :
    (RevenueSharing.unpack_unchecked input).isSome := by
  unfold RevenueSharing.unpack_unchecked RevenueSharing.unpack_from_slice
    RevenueSharing.LEN
  split
  · simp_all
  · simp

/-- C1 (refuted, evidence): at balance 2^53 + 1 = 9007199254740993 with
shares 10000 and nothing withdrawn, the handler's f64 computation
(src/processor.rs lines 181-194) permits at most 9007199254740992, while
the exact fixed-point formula floor(total * shares / 10000) - withdrawn
gives 9007199254740993: the computation is not carried out in exact
integer arithmetic and the floating-point intermediate loses precision
inside the 64-bit balance range. -/
theorem entitlement_f64_differs_from_exact :
    maxAllowedF64 9007199254740993 0 0 10000 0 true = 9007199254740992 ∧
    exactMaxAllowed 9007199254740993 0 0 10000 0 = 9007199254740993 :=
  ⟨by decide, by decide⟩

/-- C2 (refuted, evidence): against the initialized record recB (shares
10000 / 0, nothing withdrawn) at shared balance 2^53 + 1, a withdrawal
request of exactly the computed entitlement 9007199254740993 fails with
WithdrawLimitExceeded (ProgramError::Custom 2) instead of succeeding,
because the f64 value of the limit is one unit lower. -/
theorem withdraw_exact_entitlement_rejected :
    process_withdraw envB 9007199254740993 =
      ⟨Except.error RevenueSharingError.withdrawLimitExceeded.toProgramError,
        envB.state_data, []⟩ ∧
    exactMaxAllowed 9007199254740993 0 0 10000 0 = 9007199254740993 :=
  ⟨by decide, by decide⟩

/-- C3 (refuted, evidence): against the initialized record recC (shares
5000 / 5000, nothing withdrawn) at shared balance 2^53 + 3, the handler
approves a withdrawal of 4503599627370498 (within the actual balance, so
the delegated transfer can succeed), after which member 1's withdrawn
counter holds 4503599627370498, strictly above the exact entitlement
floor(total * 5000 / 10000) = 4503599627370497: the invariant
withdrawn_m <= floor(total * shares_m / 10000) is violated. -/
theorem withdrawn_counter_exceeds_entitlement :
    (process_withdraw envC 4503599627370498).result = Except.ok () ∧
    RevenueSharing.unpack_uncheckedT (process_withdraw envC 4503599627370498).state_data =
      Except.ok { recC with member_1_withdraw := 4503599627370498 } ∧
    exactMaxAllowed 9007199254740995 0 0 5000 0 = 4503599627370497 :=
  ⟨by decide, by decide, by decide⟩

/-- C4 (refuted, evidence): an instruction buffer with tag byte 0 whose
payload is shorter than 4 bytes makes unpack abort (the array_ref! macro
of unpack_revenue_sharing indexes out of bounds and panics, the `none`)
instead of returning the explicit error InvalidInstruction. -/
theorem instr_unpack_tag0_short_aborts (rest : List ℕ) (h : rest.length < 4) :
    RevenueSharingInstruction.unpack (0 :: rest) = none := by
  have h4 : ¬ (4 ≤ rest.length) := by omega
  simp [RevenueSharingInstruction.unpack,
    RevenueSharingInstruction.unpack_revenue_sharing, h4]

/-- the abort at the concrete one-byte buffer [0]. -/
theorem instr_unpack_tag0_short_aborts_witness :
    RevenueSharingInstruction.unpack [0] = none :=
  instr_unpack_tag0_short_aborts [] (by decide)

/-- C5: state decoding (Pack::unpack_unchecked over unpack_from_slice)
answers the explicit error InvalidAccountData - never the abort `none` -
both when the input is shorter than 85 bytes (the length guard of the
provided unpack_unchecked fires before the panicking array_ref! of
unpack_from_slice can run) and when the input has length 85 but its flag
byte is neither 0 nor 1. -/
theorem state_decode_short_or_bad_flag (input : List ℕ) :
    (input.length < 85 →
      RevenueSharing.unpack_unchecked input =
        some (Except.error ProgramError.invalidAccountData)) ∧
    (∀ flag rest, input = flag :: rest → input.length = 85 → flag ≠ 0 → flag ≠ 1 →
      RevenueSharing.unpack_unchecked input =
        some (Except.error ProgramError.invalidAccountData)) := by
  constructor
  · intro h
    have : ¬ input.length = RevenueSharing.LEN := by
      rw [RevenueSharing.LEN]; omega
    simp [RevenueSharing.unpack_unchecked, this]
  · intro flag rest hcons h85 h0 h1
    subst hcons
    have hL : (flag :: rest).length = RevenueSharing.LEN := by
      rw [RevenueSharing.LEN]; omega
    have hle : 85 ≤ (flag :: rest).length := by omega
    rw [RevenueSharing.unpack_unchecked, if_pos hL,
      RevenueSharing.unpack_from_slice, if_pos hle]
    have ht : (flag :: rest).take 1 = [flag] := by simp
    rw [ht]
    split
    · simp_all
    · simp_all
    · rfl

/-- the tail of an appended fixed-width segment: taking k bytes at
offset n and appending the rest at offset n + k restores the tail at
offset n. -/
theorem seg_chain (l : List ℕ) (n k : ℕ) :
    (l.drop n).take k ++ l.drop (n + k) = l.drop n := by
  rw [← List.drop_drop k n l]
  exact List.take_append_drop k (l.drop n)

/-- the seven fixed-width segments of an 85-byte layout 1+32+32+2+2+8+8,
recovered by the take/drop offsets unpack_from_slice uses. -/
theorem segments_eq (l : List ℕ) (b0 : ℕ) (p1 p2 A B C D : List ℕ)
    (hl : l = [b0] ++ (p1 ++ (p2 ++ (A ++ (B ++ (C ++ D))))))
    (h1 : p1.length = 32) (h2 : p2.length = 32) (hA : A.length = 2)
    (hB : B.length = 2) (hC : C.length = 8) (hD : D.length = 8) :
    l.length = 85 ∧ l.take 1 = [b0] ∧ (l.drop 1).take 32 = p1 ∧
    (l.drop 33).take 32 = p2 ∧ (l.drop 65).take 2 = A ∧
    (l.drop 67).take 2 = B ∧ (l.drop 69).take 8 = C ∧ (l.drop 77).take 8 = D := by
  subst hl
  have e1 : List.drop 1 ([b0] ++ (p1 ++ (p2 ++ (A ++ (B ++ (C ++ D)))))) =
      p1 ++ (p2 ++ (A ++ (B ++ (C ++ D)))) := List.drop_left' (by simp)
  have e33 : List.drop 33 ([b0] ++ (p1 ++ (p2 ++ (A ++ (B ++ (C ++ D)))))) =
      p2 ++ (A ++ (B ++ (C ++ D))) := by
    rw [show (33 : ℕ) = 1 + 32 from rfl, ← List.drop_drop, e1, List.drop_left' h1]
  have e65 : List.drop 65 ([b0] ++ (p1 ++ (p2 ++ (A ++ (B ++ (C ++ D)))))) =
      A ++ (B ++ (C ++ D)) := by
    rw [show (65 : ℕ) = 33 + 32 from rfl, ← List.drop_drop, e33, List.drop_left' h2]
  have e67 : List.drop 67 ([b0] ++ (p1 ++ (p2 ++ (A ++ (B ++ (C ++ D)))))) =
      B ++ (C ++ D) := by
    rw [show (67 : ℕ) = 65 + 2 from rfl, ← List.drop_drop, e65, List.drop_left' hA]
  have e69 : List.drop 69 ([b0] ++ (p1 ++ (p2 ++ (A ++ (B ++ (C ++ D)))))) =
      C ++ D := by
    rw [show (69 : ℕ) = 67 + 2 from rfl, ← List.drop_drop, e67, List.drop_left' hB]
  have e77 : List.drop 77 ([b0] ++ (p1 ++ (p2 ++ (A ++ (B ++ (C ++ D)))))) = D := by
    rw [show (77 : ℕ) = 69 + 8 from rfl, ← List.drop_drop, e69, List.drop_left' hC]
  refine ⟨by simp [h1, h2, hA, hB, hC, hD], List.take_left' (by simp), ?_, ?_, ?_, ?_, ?_, ?_⟩
  · rw [e1, List.take_left' h1]
  · rw [e33, List.take_left' h2]
  · rw [e65, List.take_left' hA]
  · rw [e67, List.take_left' hB]
  · rw [e69, List.take_left' hC]
  · rw [e77, List.take_of_length_le (le_of_eq hD)]

/-- decoding an encoded in-range record restores the record. -/
theorem unpack_from_slice_pack (r : RevenueSharing) (h : r.WF) :
    RevenueSharing.unpack_from_slice (RevenueSharing.pack_into_slice r) =
      some (Except.ok r) := by
  obtain ⟨ini, p1, p2, s1, s2, w1, w2⟩ := r
  obtain ⟨h1, h1b, h2, h2b, hs1, hs2, hw1, hw2⟩ := h
  have hs1' : s1 < 256 ^ 2 := by norm_num at hs1 ⊢; omega
  have hs2' : s2 < 256 ^ 2 := by norm_num at hs2 ⊢; omega
  have hw1' : w1 < 256 ^ 8 := by norm_num at hw1 ⊢; omega
  have hw2' : w2 < 256 ^ 8 := by norm_num at hw2 ⊢; omega
  cases ini with
  | false =>
    obtain ⟨hlen, t1, t2, t3, t4, t5, t6, t7⟩ :=
      segments_eq (RevenueSharing.pack_into_slice ⟨false, p1, p2, s1, s2, w1, w2⟩) 0
        p1 p2 (toLE 2 s1) (toLE 2 s2) (toLE 8 w1) (toLE 8 w2)
        (by simp [RevenueSharing.pack_into_slice])
        h1 h2 (toLE_length 2 s1) (toLE_length 2 s2) (toLE_length 8 w1) (toLE_length 8 w2)
    rw [RevenueSharing.unpack_from_slice, if_pos (by omega)]
    simp only [t2, t3, t4, t5, t6, t7,
      fromLE_toLE 2 s1 hs1', fromLE_toLE 2 s2 hs2',
      fromLE_toLE 8 w1 hw1', fromLE_toLE 8 w2 hw2']
    rw [t1]
  | true =>
    obtain ⟨hlen, t1, t2, t3, t4, t5, t6, t7⟩ :=
      segments_eq (RevenueSharing.pack_into_slice ⟨true, p1, p2, s1, s2, w1, w2⟩) 1
        p1 p2 (toLE 2 s1) (toLE 2 s2) (toLE 8 w1) (toLE 8 w2)
        (by simp [RevenueSharing.pack_into_slice])
        h1 h2 (toLE_length 2 s1) (toLE_length 2 s2) (toLE_length 8 w1) (toLE_length 8 w2)
    rw [RevenueSharing.unpack_from_slice, if_pos (by omega)]
    simp only [t2, t3, t4, t5, t6, t7,
      fromLE_toLE 2 s1 hs1', fromLE_toLE 2 s2 hs2',
      fromLE_toLE 8 w1 hw1', fromLE_toLE 8 w2 hw2']
    rw [t1]

/-- encoding a validly decoded 85-byte buffer restores the buffer. -/
theorem pack_unpack_from_slice (b : List ℕ) (hlen : b.length = 85)
    (hb : ∀ x ∈ b, x < 256) (hflag : b.take 1 = [0] ∨ b.take 1 = [1]) :
    (RevenueSharing.unpack_from_slice b).map
        (Except.map RevenueSharing.pack_into_slice) = some (Except.ok b) := by
  have h85 : b.drop 85 = [] := List.drop_eq_nil_of_le (by omega)
  have hseg : ∀ n k : ℕ, n + k ≤ 85 →
      toLE k (fromLE ((b.drop n).take k)) = (b.drop n).take k := by
    intro n k hnk
    have hL : ((b.drop n).take k).length = k := by
      rw [List.length_take, List.length_drop, hlen]
      omega
    have hm : ∀ x ∈ (b.drop n).take k, x < 256 := fun x hx =>
      hb x (List.mem_of_mem_drop (List.mem_of_mem_take hx))
    calc toLE k (fromLE ((b.drop n).take k))
        = toLE ((b.drop n).take k).length (fromLE ((b.drop n).take k)) := by rw [hL]
      _ = (b.drop n).take k := toLE_fromLE _ hm
  have a77 : (b.drop 77).take 8 = b.drop 77 := by
    have hc := seg_chain b 77 8
    rwa [show (77 + 8 : ℕ) = 85 from rfl, h85, List.append_nil] at hc
  have c69 : (b.drop 69).take 8 ++ b.drop 77 = b.drop 69 := by
    have hc := seg_chain b 69 8
    rwa [show (69 + 8 : ℕ) = 77 from rfl] at hc
  have c67 : (b.drop 67).take 2 ++ b.drop 69 = b.drop 67 := by
    have hc := seg_chain b 67 2
    rwa [show (67 + 2 : ℕ) = 69 from rfl] at hc
  have c65 : (b.drop 65).take 2 ++ b.drop 67 = b.drop 65 := by
    have hc := seg_chain b 65 2
    rwa [show (65 + 2 : ℕ) = 67 from rfl] at hc
  have c33 : (b.drop 33).take 32 ++ b.drop 65 = b.drop 33 := by
    have hc := seg_chain b 33 32
    rwa [show (33 + 32 : ℕ) = 65 from rfl] at hc
  have c1 : (b.drop 1).take 32 ++ b.drop 33 = b.drop 1 := by
    have hc := seg_chain b 1 32
    rwa [show (1 + 32 : ℕ) = 33 from rfl] at hc
  rw [RevenueSharing.unpack_from_slice, if_pos (by omega)]
  rcases hflag with hf | hf
  · rw [hf]
    show some (Except.ok ([0] ++ (b.drop 1).take 32 ++ (b.drop 33).take 32 ++
        toLE 2 (fromLE ((b.drop 65).take 2)) ++ toLE 2 (fromLE ((b.drop 67).take 2)) ++
        toLE 8 (fromLE ((b.drop 69).take 8)) ++ toLE 8 (fromLE ((b.drop 77).take 8)))) =
      some (Except.ok b)
    rw [hseg 65 2 (by omega), hseg 67 2 (by omega), hseg 69 8 (by omega),
      hseg 77 8 (by omega), a77]
    simp only [List.append_assoc]
    rw [c69, c67, c65, c33, c1]
    have hb0 : List.cons 0 (b.drop 1) = b := by
      have := List.take_append_drop 1 b
      rwa [hf] at this
    rw [show ([0] ++ b.drop 1 : List ℕ) = List.cons 0 (b.drop 1) from rfl, hb0]
  · rw [hf]
    show some (Except.ok ([1] ++ (b.drop 1).take 32 ++ (b.drop 33).take 32 ++
        toLE 2 (fromLE ((b.drop 65).take 2)) ++ toLE 2 (fromLE ((b.drop 67).take 2)) ++
        toLE 8 (fromLE ((b.drop 69).take 8)) ++ toLE 8 (fromLE ((b.drop 77).take 8)))) =
      some (Except.ok b)
    rw [hseg 65 2 (by omega), hseg 67 2 (by omega), hseg 69 8 (by omega),
      hseg 77 8 (by omega), a77]
    simp only [List.append_assoc]
    rw [c69, c67, c65, c33, c1]
    have hb1 : List.cons 1 (b.drop 1) = b := by
      have := List.take_append_drop 1 b
      rwa [hf] at this
    rw [show ([1] ++ b.drop 1 : List ℕ) = List.cons 1 (b.drop 1) from rfl, hb1]

/-- C6: the state codec round-trips: encoding the decoded record of any
validly-encoded 85-byte buffer (all bytes in range, flag byte 0 or 1)
reproduces the buffer byte for byte, and decoding the 85-byte encoding of
any in-range record yields the record back. -/
theorem state_codec_round_trip :
    (∀ b : List ℕ, b.length = 85 → (∀ x ∈ b, x < 256) →
      (b.take 1 = [0] ∨ b.take 1 = [1]) →
      (RevenueSharing.unpack_from_slice b).map
          (Except.map RevenueSharing.pack_into_slice) = some (Except.ok b)) ∧
    (∀ r : RevenueSharing, r.WF →
      RevenueSharing.unpack_from_slice (RevenueSharing.pack_into_slice r) =
        some (Except.ok r)) :=
  ⟨pack_unpack_from_slice, unpack_from_slice_pack⟩

/-- the round trip at a concrete buffer (the 85-byte encoding of recA)
and at the concrete record recA. -/
theorem state_codec_round_trip_witness :
    (RevenueSharing.unpack_from_slice (RevenueSharing.pack_into_slice recA)).map
        (Except.map RevenueSharing.pack_into_slice) =
      some (Except.ok (RevenueSharing.pack_into_slice recA)) ∧
    RevenueSharing.unpack_from_slice (RevenueSharing.pack_into_slice recA) =
      some (Except.ok recA) :=
  ⟨state_codec_round_trip.1 (RevenueSharing.pack_into_slice recA)
      (by decide) (by decide) (by decide),
    state_codec_round_trip.2 recA (by decide)⟩

/-- a short input and a bad-flag input answered by the explicit error. -/
theorem state_decode_short_or_bad_flag_witness :
    RevenueSharing.unpack_unchecked [] =
      some (Except.error ProgramError.invalidAccountData) ∧
    RevenueSharing.unpack_unchecked (7 :: List.replicate 84 0) =
      some (Except.error ProgramError.invalidAccountData) :=
  ⟨(state_decode_short_or_bad_flag []).1 (by decide),
    (state_decode_short_or_bad_flag (7 :: List.replicate 84 0)).2 7 (List.replicate 84 0)
      rfl (by decide) (by decide) (by decide)⟩

/-- length 85 of the input is forced by a successful checked unpack. -/
theorem unpackT_length (input : List ℕ) (st : RevenueSharing)
    (h : RevenueSharing.unpackT input = Except.ok st) : input.length = 85 := by
  by_contra hne
  have : ¬ input.length = RevenueSharing.LEN := by rw [RevenueSharing.LEN]; exact hne
  simp [RevenueSharing.unpackT, RevenueSharing.unpack_uncheckedT,
    RevenueSharing.unpack_unchecked, this] at h

/-- C7: with the earlier preconditions satisfied (signer, shared account
owned by the token program, rent-exempt state account), running the init
handler against a state record that already decodes as initialized always
fails with AccountAlreadyInitialized, leaves the record bytes unchanged
and performs no action. -/
theorem reinit_already_initialized_fails (env : InitEnv) (s1 s2 : ℕ)
    (st : RevenueSharing)
    (hsig : env.init_is_signer = true)
    (howner : env.shared_owner = spl_token_id)
    (hrent : env.rent_exempt = true)
    (hst : RevenueSharing.unpack_uncheckedT env.state_data = Except.ok st)
    (hini : st.is_initialized = true) :
    process_init_revenue_sharing env s1 s2 =
      ⟨Except.error ProgramError.accountAlreadyInitialized, env.state_data, []⟩ := by
  simp [process_init_revenue_sharing, hsig, howner, hrent, hst, hini]

/-- the failed re-init attempt at the concrete environment envInitA. -/
theorem reinit_already_initialized_fails_witness :
    process_init_revenue_sharing envInitA 1 2 =
      ⟨Except.error ProgramError.accountAlreadyInitialized, envInitA.state_data, []⟩ :=
  reinit_already_initialized_fails envInitA 1 2 recA (by decide) (by decide)
    (by decide) (by decide) (by decide)

/-- C8: a withdrawal signed by a caller whose identity is neither
member_1 nor member_2 of the initialized record fails with
InvalidAccountData, requests no transfer (empty action trace) and leaves
the record bytes unchanged. -/
theorem withdraw_nonmember_rejected (env : WithdrawEnv) (amount : ℕ)
    (st : RevenueSharing)
    (hsig : env.caller_is_signer = true)
    (hst : RevenueSharing.unpackT env.state_data = Except.ok st)
    (h1 : st.member_1_pubkey ≠ env.caller_key)
    (h2 : st.member_2_pubkey ≠ env.caller_key) :
    process_withdraw env amount =
      ⟨Except.error ProgramError.invalidAccountData, env.state_data, []⟩ := by
  simp [process_withdraw, hsig, hst, h1, h2]

/-- the rejected outsider withdrawal at the concrete environment envNM. -/
theorem withdraw_nonmember_rejected_witness :
    process_withdraw envNM 1 =
      ⟨Except.error ProgramError.invalidAccountData, envNM.state_data, []⟩ :=
  withdraw_nonmember_rejected envNM 1 recA (by decide) (by decide)
    (by decide) (by decide)

/-- C9: effect ordering of the withdrawal handler, over every
environment and request.  (1) Whenever the state record's bytes change,
the delegated transfer succeeded, the handler succeeded, and the trace is
exactly the transfer request followed by the record write - the write is
the last action and the counters are never updated without a successful
transfer.  (2) Any record write in the trace is the final action and is
preceded by the transfer request, with the transfer successful.  (3) Any
transfer request in the trace implies the entitlement check had already
passed: the requested amount is within the f64 limit computed from the
decoded record and the shared balance. -/
theorem withdraw_effect_ordering (env : WithdrawEnv) (amount : ℕ) :
    ((process_withdraw env amount).state_data ≠ env.state_data →
      env.transfer_result = Except.ok () ∧
      (process_withdraw env amount).result = Except.ok () ∧
      (process_withdraw env amount).trace =
        [Action.transferRequest amount,
          Action.recordWrite (process_withdraw env amount).state_data]) ∧
    (∀ d, Action.recordWrite d ∈ (process_withdraw env amount).trace →
      env.transfer_result = Except.ok () ∧
      (process_withdraw env amount).trace =
        [Action.transferRequest amount, Action.recordWrite d]) ∧
    (Action.transferRequest amount ∈ (process_withdraw env amount).trace →
      ∃ st balance, RevenueSharing.unpackT env.state_data = Except.ok st ∧
        env.shared_amount = Except.ok balance ∧
        amount ≤ maxAllowedF64 balance st.member_1_withdraw st.member_2_withdraw
          st.member_1_shares st.member_2_shares
          (st.member_1_pubkey == env.caller_key)) := by
  obtain ⟨ck, sig, sd, sa, tr⟩ := env
  cases sig with
  | false => simp [process_withdraw]
  | true =>
    rcases hunp : RevenueSharing.unpackT sd with e | st
    · simp [process_withdraw, hunp]
    · by_cases hm : (!(st.member_1_pubkey == ck) && !(st.member_2_pubkey == ck)) = true
      · simp [process_withdraw, hunp, hm]
      · rcases hsa : sa with e | balance
        · simp [process_withdraw, hunp, hm, hsa]
        · by_cases hgt : amount > maxAllowedF64 balance st.member_1_withdraw
              st.member_2_withdraw st.member_1_shares st.member_2_shares
              (st.member_1_pubkey == ck)
          · simp [process_withdraw, hunp, hm, hsa, hgt]
          · have hle := Nat.le_of_not_lt hgt
            rcases htr : tr with e | u
            · simp [process_withdraw, hunp, hm, hsa, hgt, htr]
              exact hle
            · have hlen := unpackT_length sd st hunp
              have hpk : ∀ st2 : RevenueSharing,
                  RevenueSharing.pack st2 sd.length =
                    Except.ok (RevenueSharing.pack_into_slice st2) := by
                intro st2
                rw [RevenueSharing.pack, if_pos (by rw [hlen, RevenueSharing.LEN])]
              simp [process_withdraw, hunp, hm, hsa, hgt, htr, hpk]
              exact hle

/-- a successful concrete run of the handler (envA, amount 600)
instantiating the ordering theorem: the transfer succeeded and the trace
is the transfer request followed by the final record write. -/
theorem withdraw_effect_ordering_witness :
    envA.transfer_result = Except.ok () ∧
    (process_withdraw envA 600).trace =
      [Action.transferRequest 600,
        Action.recordWrite (process_withdraw envA 600).state_data] := by
  have h := (withdraw_effect_ordering envA 600).1 (by decide)
  exact ⟨h.1, h.2.2⟩

/-- C10: when the two configured member identities coincide and that
identity is the signing caller, a withdrawal within member 1's f64 limit
succeeds and increments BOTH withdrawn counters by the amount (the record
books 2a withdrawn for a single transfer of a), while the entitlement
check that gated it used member 1's shares and withdrawn counter (the
is_m1 = true branch of maxAllowedF64). -/
theorem withdraw_equal_members_double_count (env : WithdrawEnv)
    (amount balance : ℕ) (st : RevenueSharing)
    (hsig : env.caller_is_signer = true)
    (hst : RevenueSharing.unpackT env.state_data = Except.ok st)
    (heq : st.member_1_pubkey = st.member_2_pubkey)
    (hck : st.member_1_pubkey = env.caller_key)
    (hbal : env.shared_amount = Except.ok balance)
    (hmax : amount ≤ maxAllowedF64 balance st.member_1_withdraw
      st.member_2_withdraw st.member_1_shares st.member_2_shares true)
    (htr : env.transfer_result = Except.ok ()) :
    process_withdraw env amount =
      ⟨Except.ok (),
        RevenueSharing.pack_into_slice
          { st with
            member_1_withdraw := (st.member_1_withdraw + amount) % 2 ^ 64
            member_2_withdraw := (st.member_2_withdraw + amount) % 2 ^ 64 },
        [Action.transferRequest amount,
          Action.recordWrite (RevenueSharing.pack_into_slice
            { st with
              member_1_withdraw := (st.member_1_withdraw + amount) % 2 ^ 64
              member_2_withdraw := (st.member_2_withdraw + amount) % 2 ^ 64 })]⟩ := by
  have hlen := unpackT_length env.state_data st hst
  have hm1 : (st.member_1_pubkey == env.caller_key) = true := by
    rw [hck, beq_self_eq_true]
  have hm2 : (st.member_2_pubkey == env.caller_key) = true := by
    rw [← heq, hck, beq_self_eq_true]
  have hmax1 : ¬ amount > maxAllowedF64 balance st.member_1_withdraw
      st.member_2_withdraw st.member_1_shares st.member_2_shares true :=
    Nat.not_lt.mpr hmax
  have hpk : ∀ st2 : RevenueSharing,
      RevenueSharing.pack st2 env.state_data.length =
        Except.ok (RevenueSharing.pack_into_slice st2) := by
    intro st2
    rw [RevenueSharing.pack, if_pos (by rw [hlen, RevenueSharing.LEN])]
  simp [process_withdraw, hsig, hst, hm1, hm2, hbal, htr, hmax1, hpk]

/-- the double-count at the concrete environment envEq: the shared
identity withdraws 500 within member 1's limit of 600 and both counters
advance by 500. -/
theorem withdraw_equal_members_double_count_witness :
    process_withdraw envEq 500 =
      ⟨Except.ok (),
        RevenueSharing.pack_into_slice
          { recEq with
            member_1_withdraw := (recEq.member_1_withdraw + 500) % 2 ^ 64
            member_2_withdraw := (recEq.member_2_withdraw + 500) % 2 ^ 64 },
        [Action.transferRequest 500,
          Action.recordWrite (RevenueSharing.pack_into_slice
            { recEq with
              member_1_withdraw := (recEq.member_1_withdraw + 500) % 2 ^ 64
              member_2_withdraw := (recEq.member_2_withdraw + 500) % 2 ^ 64 })]⟩ :=
  withdraw_equal_members_double_count envEq 500 1000 recEq (by decide) (by decide)
    (by decide) (by decide) (by decide) (by decide) (by decide)

end RevShare
